import Mathlib

/-!
Shallow embedding of the appliance lifecycle core of
`utils/appliance/__init__.py`.

Remote effects (SSH commands, HTTP probes, database queries) are modelled
by oracle parameters giving the outcome each remote call would report, and
by explicit traces recording which calls a code path performs.  Machine
state mutated in place by the Python code is threaded explicitly.
-/

set_option maxRecDepth 2000

namespace Appliance

/-! ## Database readiness (`is_db_ready` and its three probe properties) -/

/-- Oracle for the three database readiness probes: the outcome
(`result.rc == 0`) each underlying `psql` command would report. -/
structure DbProbeOracle where
  online : Bool
  hasDatabase : Bool
  hasTables : Bool
  deriving DecidableEq

/-- `IPAppliance.db_online`: runs the `select now()` check over SSH and
reports `rc == 0`.  Evaluating the property appends its name to the
evaluation log so that evaluation order is observable. -/
def db_online (o : DbProbeOracle) (log : List String) : Bool × List String :=
  (o.online, log ++ ["db_online"])

/-- `IPAppliance.db_has_database`: the `pg_database` catalog check. -/
def db_has_database (o : DbProbeOracle) (log : List String) : Bool × List String :=
  (o.hasDatabase, log ++ ["db_has_database"])

/-- `IPAppliance.db_has_tables`: the `information_schema.tables` check. -/
def db_has_tables (o : DbProbeOracle) (log : List String) : Bool × List String :=
  (o.hasTables, log ++ ["db_has_tables"])

/-- `IPAppliance.is_db_ready`:
`return self.db_online and self.db_has_database and self.db_has_tables`.
Python `and` short-circuits, so a later property is evaluated only when
every earlier one returned a truthy value. -/
def is_db_ready (o : DbProbeOracle) (log : List String) : Bool × List String :=
  let r1 := db_online o log
  if r1.1 then
    let r2 := db_has_database o r1.2
    if r2.1 then db_has_tables o r2.2
    else (false, r2.2)
  else (false, r1.2)

/-! ## Web UI triple-sampled readiness (`is_web_ui_running`) -/

/-- A Python value as far as `is_web_ui_running` is concerned: the
`unsure` argument may be an arbitrary object, while the other two
branches return the booleans `False` and `True`. -/
inductive PyVal where
  | bool (b : Bool)
  | other (tag : Nat)
  deriving DecidableEq

/-- One observable step of the probe loop body: an HTTP probe (with its
outcome) via `_check_appliance_ui_wait_fn`, or the `sleep(3)` call. -/
inductive UiEvent where
  | probe (succeeded : Bool)
  | sleep
  deriving DecidableEq

/-- The `for try_num in range(num_of_tries)` loop of `is_web_ui_running`:
each iteration performs one HTTP probe, counts a success, then sleeps. -/
def ui_probe_loop (oracle : Nat → Bool) (tries : List Nat) : Nat × List UiEvent :=
  tries.foldl
    (fun acc n =>
      (acc.1 + (if oracle n then 1 else 0),
       acc.2 ++ [UiEvent.probe (oracle n), UiEvent.sleep]))
    (0, [])

/-- `IPAppliance.is_web_ui_running(unsure=False)`: three probes, then
`False` on zero successes, `True` on three, otherwise the `unsure`
argument. -/
def is_web_ui_running (unsure : PyVal) (oracle : Nat → Bool) : PyVal × List UiEvent :=
  let r := ui_probe_loop oracle (List.range 3)
  (if r.1 == 0 then PyVal.bool false
   else if r.1 == 3 then PyVal.bool true
   else unsure,
   r.2)

/-! ## Database address, cached `db` handle, and the enable-DB operations -/

/-- A database handle as built by `db.Db(self.db_address)`, identified by
the address it was constructed from plus an allocation id standing for
Python object identity (each constructor call yields a fresh object). -/
structure Db where
  hostname : String
  objId : Nat
  deriving DecidableEq

/-- The slice of `IPAppliance` state touched by the db-address
operations: the current `db_address`, the memoised `db` cached-property
slot, and the allocation counter modelling fresh object creation. -/
structure AppState where
  address : String
  db_address : String
  dbCache : Option Db
  nextId : Nat
  deriving DecidableEq

/-- `IPAppliance.db` (a `cached_property`): return the memoised handle
when present, otherwise build `db.Db(self.db_address)`, memoise it and
return it. -/
def db_prop (s : AppState) : Db × AppState :=
  match s.dbCache with
  | some d => (d, s)
  | none =>
      let d : Db := ⟨s.db_address, s.nextId⟩
      (d, ⟨s.address, s.db_address, some d, s.nextId + 1⟩)

/-- `IPAppliance.enable_internal_db`, restricted to its local state
effects: it sets `self.db_address = self.address` and clears the cached
`db` handle via `clear_property_cache` before doing any remote work, then
(through the CLI or the generated script, both abstracted into the
`(status, out)` oracle) returns the remote outcome unchanged. -/
def enable_internal_db (s : AppState) (status : Int) (out : String) :
    (Int × String) × AppState :=
  ((status, out), ⟨s.address, s.address, none, s.nextId⟩)

/-- `IPAppliance.enable_external_db`: it sets
`self.db_address = db_address` and clears the cached `db` handle up
front, runs the remote enable command (abstracted into the
`(status, out)` oracle), and on a non-zero status raises
`ApplianceException` with the message built from the appliance address
and the external db address; the captured output is only logged.  The
mutated state persists across the raise, as Python instance attributes
do. -/
def enable_external_db (s : AppState) (db_address : String) (status : Int)
    (out : String) : AppState × Except String (Int × String) :=
  let s1 : AppState := ⟨s.address, db_address, none, s.nextId⟩
  if status ≠ 0 then
    (s1, Except.error
      ("Appliance " ++ s.address ++ " failed to enable external DB running on "
        ++ db_address))
  else
    (s1, Except.ok (status, out))

/-- Concrete appliance state used to exhibit the behaviour of
`enable_external_db` on a failing remote command. -/
def extDbFailState : AppState := ⟨"10.11.12.13", "10.11.12.13", none, 0⟩

/-! ## Server roles (getter view filter and setter idempotence) -/

/-- Row of the `server_roles` table. -/
structure ServerRole where
  id : Nat
  name : String
  deriving DecidableEq

/-- Row of the `assigned_server_roles` join table. -/
structure AssignedServerRole where
  server_role_id : Nat
  miq_server_id : Nat
  active : Bool
  deriving DecidableEq

/-- The `server_roles` property getter: `all_role_names` is the set of
names in `server_roles`; `active_roles` is the set of names joined
through `assigned_server_roles` filtered to this server id and
`active == True`; the resulting name-to-bool dict then has the
`dead_keys` removed — always `database_owner` and `vdi_inventory`, plus,
when storage is not enabled, every key starting with `storage` and the
key `vmdb_storage_bridge`. -/
def server_roles_getter (sr : List ServerRole) (asr : List AssignedServerRole)
    (evm_id : Nat) (is_storage_enabled : Bool) : List (String × Bool) :=
  let all_role_names := (sr.map (fun r => r.name)).dedup
  let active_roles :=
    ((sr.filter (fun r => asr.any (fun a =>
        a.server_role_id == r.id && a.miq_server_id == evm_id && a.active))).map
      (fun r => r.name)).dedup
  let roles := all_role_names.map (fun n => (n, active_roles.contains n))
  let dead_keys :=
    ["database_owner", "vdi_inventory"] ++
      (if is_storage_enabled then []
       else (roles.map (fun kv => kv.1)).filter
         (fun k => k.startsWith "storage" || k == "vmdb_storage_bridge"))
  roles.filter (fun kv => !(dead_keys.contains kv.1))

/-- Observable side effects of the `server_roles` setter. -/
inductive RoleSetAction where
  | get_yaml_config
  | set_yaml_config
  | wait_for_convergence
  deriving DecidableEq

/-- Python dict lookup on an association list (first binding wins). -/
def pyLookup (l : List (String × Bool)) (k : String) : Option Bool :=
  (l.find? (fun kv => kv.1 == k)).map (fun kv => kv.2)

/-- Python dict equality: the two mappings agree on every key of either
side (so in particular they have the same key set). -/
def pyDictEq (a b : List (String × Bool)) : Bool :=
  (a.map (fun kv => kv.1) ++ b.map (fun kv => kv.1)).all
    (fun k => pyLookup a k == pyLookup b k)

/-- The `server_roles` property setter: it first reads the current
`server_roles` dict from the database; when it already equals the
requested mapping it logs and returns at once, otherwise it fetches the
YAML config, writes the joined role string back, and waits for
convergence.  The returned list is the trace of configuration actions
performed. -/
def server_roles_setter (sr : List ServerRole) (asr : List AssignedServerRole)
    (evm_id : Nat) (is_storage_enabled : Bool) (roles : List (String × Bool)) :
    List RoleSetAction :=
  if pyDictEq (server_roles_getter sr asr evm_id is_storage_enabled) roles then []
  else [RoleSetAction.get_yaml_config, RoleSetAction.set_yaml_config,
        RoleSetAction.wait_for_convergence]

/-! ## Appliance stack (`ApplianceStack` over `werkzeug` `LocalStack`) -/

/-- An appliance as the stack sees it; `objId` models Python object
identity (`is`), distinct live objects carrying distinct ids. -/
structure StackAppliance where
  objId : Nat
  address : String
  browser_steal : Bool
  deriving DecidableEq

/-- `LocalStack.push` as wrapped by `ApplianceStack.push` (head of the
list is the top of the stack). -/
def stack_push (s : List StackAppliance) (a : StackAppliance) :
    List StackAppliance := a :: s

/-- `LocalStack.top`. -/
def stack_top (s : List StackAppliance) : Option StackAppliance := s.head?

/-- `ApplianceStack.pop`: `LocalStack.pop` yields `None` on an empty
stack, and the method then dereferences `was_before.address`, so popping
an empty stack blows up with an `AttributeError`; otherwise the most
recently pushed appliance is removed and returned. -/
def stack_pop (s : List StackAppliance) :
    Except String (StackAppliance × List StackAppliance) :=
  match s with
  | [] => Except.error "AttributeError: None has no attribute address"
  | a :: rest => Except.ok (a, rest)

/-- The stack discipline of `IPAppliance.__exit__`:
`assert stack.pop() is self` with message `appliance stack inconsistent`;
the identity test is on object identity. -/
def exit_pop (s : List StackAppliance) (self : StackAppliance) :
    Except String (List StackAppliance) :=
  match stack_pop s with
  | Except.error e => Except.error e
  | Except.ok (popped, rest) =>
      if popped.objId == self.objId then Except.ok rest
      else Except.error "appliance stack inconsistent"

/-! ## Server identity (`configuration_details` and its readers) -/

/-- Row of `miq_servers`. -/
structure MiqServer where
  id : Nat
  name : String
  ipaddress : String
  guid : String
  zone_id : Nat
  deriving DecidableEq

/-- The slice of the relational store `configuration_details` reads.  A
missing table makes `self.db[...]` raise `KeyError` (modelled by
`none`), which `configuration_details` turns into `None`. -/
structure MiqStore where
  miq_regions : Option (List Nat)
  miq_servers : Option (List MiqServer)
  deriving DecidableEq

/-- `SEQ_FACT = 1e12` (a float in the source; region numbers and server
ids are small enough that float arithmetic on them is exact). -/
def SEQ_FACT : Nat := 1000000000000

/-- `IPAppliance.configuration_details`: iterate the regions (the body
returns on the first row); with exactly one server row it is taken
as-is, otherwise the rows are filtered by the region id range and by
ipaddress/guid match and the first survivor is taken; a match yields
`(region, name, id, zone_id)`, no match yields a tuple of four `None`,
an empty regions table yields `None`, and a missing table (`KeyError`)
yields `None`. -/
def configuration_details (hostname guid : String) (st : MiqStore) :
    Option (Option Nat × Option String × Option Nat × Option Nat) :=
  match st.miq_servers, st.miq_regions with
  | some servers, some regions =>
    match regions with
    | [] => none
    | region :: _ =>
      let reg_min := region * SEQ_FACT
      let reg_max := reg_min + SEQ_FACT
      let found :=
        if servers.length == 1 then servers.head?
        else (servers.filter (fun s =>
          decide (reg_min ≤ s.id) && decide (s.id < reg_max) &&
            (s.ipaddress == hostname || s.guid == guid))).head?
      match found with
      | some s => some (some region, some s.name, some s.id, some s.zone_id)
      | none => some (none, none, none, none)
  | _, _ => none

/-- `IPAppliance.server_id`: `configuration_details[2]`, with the
`TypeError` on a `None` subscript mapped to `None`. -/
def server_id (hostname guid : String) (st : MiqStore) : Option Nat :=
  match configuration_details hostname guid st with
  | some t => t.2.2.1
  | none => none

/-- `IPAppliance.server_region`: `configuration_details[0]`. -/
def server_region (hostname guid : String) (st : MiqStore) : Option Nat :=
  match configuration_details hostname guid st with
  | some t => t.1
  | none => none

/-- `IPAppliance.server_name`: `configuration_details[1]`. -/
def server_name (hostname guid : String) (st : MiqStore) : Option String :=
  match configuration_details hostname guid st with
  | some t => t.2.1
  | none => none

/-! ## Clock fixing (`fix_ntp_clock`) -/

/-- Environment oracle for `fix_ntp_clock`: the outcome of each remote
read the method performs. -/
structure NtpEnv where
  chrony_installed : Bool
  chronyd_enabled : Bool
  clock_servers : List String
  old_conf : String
  chronyd_status_ok : Bool
  tracking_rc_ok : Bool
  tracking_output : String
  deriving DecidableEq

/-- State-changing remote commands `fix_ntp_clock` can issue. -/
inductive NtpCmd where
  | enable_chronyd
  | daemon_reload
  | write_conf (contents : String)
  | restart_chronyd
  deriving DecidableEq

/-- The canonical chrony configuration `fix_ntp_clock` prepares:
`base_config` plus one `server <srv> iburst` line per configured clock
server, joined with newlines. -/
def chrony_config_file (clock_servers : List String) : String :=
  String.intercalate "\n"
    (["driftfile /var/lib/chrony/drift", "makestep 10 10", "rtcsync"] ++
      clock_servers.map (fun srv => "server " ++ srv ++ " iburst"))

/-- `IPAppliance.fix_ntp_clock`: raise when chrony is not installed;
enable chronyd (plus daemon-reload) when it is not enabled; overwrite
`/etc/chrony.conf` only when the remote content differs from the
prepared configuration; restart chronyd when the file was updated or
`systemctl status chronyd` reports it not running; finally verify
`chronyc tracking` and raise `ApplianceException` with the captured
output when that verification fails.  The result carries the trace of
state-changing commands issued. -/
def fix_ntp_clock (e : NtpEnv) : Except String (List NtpCmd) :=
  if e.chrony_installed = false then Except.error "Chrony isn\x27t installed"
  else
    let t1 : List NtpCmd :=
      if e.chronyd_enabled = false then [NtpCmd.enable_chronyd, NtpCmd.daemon_reload]
      else []
    let config_file := chrony_config_file e.clock_servers
    let conf_file_updated := config_file != e.old_conf
    let t2 : List NtpCmd :=
      if conf_file_updated then [NtpCmd.write_conf config_file] else []
    let t3 : List NtpCmd :=
      if conf_file_updated || e.chronyd_status_ok = false then [NtpCmd.restart_chronyd]
      else []
    if e.tracking_rc_ok then Except.ok (t1 ++ t2 ++ t3)
    else Except.error ("chrony doesn\x27t work. Error message: " ++ e.tracking_output)

/-- Environment exhibiting a restart with an unchanged configuration
file: chrony installed and enabled, remote config already equal to the
prepared one, but chronyd not currently running. -/
def ntpCounterEnv : NtpEnv :=
  ⟨true, true, ["203.0.113.9"], chrony_config_file ["203.0.113.9"], false, true, ""⟩

/-! ## Appliance equality (`IPAppliance.__eq__` vs `Appliance.__eq__`) -/

/-- The two appliance variants: a bare address-only `IPAppliance`, and a
provider-backed `Appliance` (a subclass of `IPAppliance`) carrying a vm
name and a provider key alongside its address. -/
inductive PyAppliance where
  | ipOnly (address : String)
  | provided (address : String) (vmname : String) (provider_key : String)
  deriving DecidableEq

/-- The `address` attribute common to both variants. -/
def pyApplianceAddress : PyAppliance → String
  | PyAppliance.ipOnly a => a
  | PyAppliance.provided a _ _ => a

/-- `IPAppliance.__eq__(self, other)`:
`isinstance(other, IPAppliance) and self.address == other.address`.
Both variants are instances of `IPAppliance`, so only the addresses are
compared. -/
def ipappliance_eq_method (self other : PyAppliance) : Bool :=
  pyApplianceAddress self == pyApplianceAddress other

/-- `Appliance.__eq__(self, other)` for a provider-backed appliance with
the given vm name and provider key: `isinstance(other, type(self))`
requires `other` to be an `Appliance` as well, then vm name and provider
key are compared. -/
def appliance_eq_method (vmname provider_key : String) (other : PyAppliance) : Bool :=
  match other with
  | PyAppliance.ipOnly _ => false
  | PyAppliance.provided _ v p => vmname == v && provider_key == p

/-- The `==` operator between the two classes under the CPython
rich-comparison protocol: when the right operand is an instance of a
proper subclass of the type of the left operand, the reflected method of
the right operand is tried first; since neither `__eq__` here ever
returns `NotImplemented`, whichever method is tried first decides the
result.  So `ipOnly == provided` dispatches to the subclass method
(reflected), and every other pairing dispatches to the left operand
method. -/
def py_eq (x y : PyAppliance) : Bool :=
  match x, y with
  | PyAppliance.ipOnly _, PyAppliance.provided _ v p => appliance_eq_method v p x
  | PyAppliance.ipOnly _, PyAppliance.ipOnly _ => ipappliance_eq_method x y
  | PyAppliance.provided _ v p, _ => appliance_eq_method v p y

end Appliance

/-! ## Claim theorems -/

/-- C1: `is_db_ready` returns true exactly when `db_online`,
`db_has_database` and `db_has_tables` are all true, and it evaluates the
three probes with short-circuit ordering: `db_has_database` is never
evaluated when `db_online` is false, and `db_has_tables` is never
evaluated when `db_online` or `db_has_database` is false. -/
theorem is_db_ready_short_circuit (o : Appliance.DbProbeOracle) :
    (Appliance.is_db_ready o []).1 = (o.online && o.hasDatabase && o.hasTables) ∧
    (o.online = false →
      "db_has_database" ∉ (Appliance.is_db_ready o []).2 ∧
      "db_has_tables" ∉ (Appliance.is_db_ready o []).2) ∧
    ((o.online = false ∨ o.hasDatabase = false) →
      "db_has_tables" ∉ (Appliance.is_db_ready o []).2) := by
  obtain ⟨a, b, c⟩ := o
  cases a <;> cases b <;> cases c <;>
    simp [Appliance.is_db_ready, Appliance.db_online, Appliance.db_has_database,
      Appliance.db_has_tables]

/-- C1 witness: with the database offline, the tables probe is never
evaluated (and the database-existence probe is skipped as well). -/
theorem is_db_ready_short_circuit_witness :
    "db_has_tables" ∉ (Appliance.is_db_ready ⟨false, true, true⟩ []).2 :=
  (is_db_ready_short_circuit ⟨false, true, true⟩).2.2 (Or.inl rfl)

/-- C2 counterexample: the claim quantifies over every value of the
`unsure` argument and states that `True` is returned if and only if all
three probes succeed (never from a mixed outcome).  With `unsure = True`
and a mixed outcome (probes 0 and 1 succeed, probe 2 fails) the function
returns the Python value `True` even though not all probes succeeded. -/
theorem is_web_ui_running_counterexample :
    ¬ ((Appliance.is_web_ui_running (Appliance.PyVal.bool true)
          (fun n => n == 0 || n == 1)).1 = Appliance.PyVal.bool true →
        ∀ n, n < 3 → (n == 0 || n == 1) = true) := by
  decide

/-- C2 amended: `is_web_ui_running` performs exactly 3 probes with a
sleep between consecutive probes, returns `False` when zero probes
succeed, `True` when all three succeed, and the `unsure` argument itself
otherwise; whenever the `unsure` sentinel is distinct from the booleans
`True` and `False`, the result is `True` iff all three probes succeed and
`False` iff all three fail, never either one from a mixed outcome. -/
theorem is_web_ui_running_spec (unsure : Appliance.PyVal) (oracle : Nat → Bool) :
    (Appliance.is_web_ui_running unsure oracle).2 =
      [Appliance.UiEvent.probe (oracle 0), Appliance.UiEvent.sleep,
       Appliance.UiEvent.probe (oracle 1), Appliance.UiEvent.sleep,
       Appliance.UiEvent.probe (oracle 2), Appliance.UiEvent.sleep] ∧
    ((oracle 0 = false ∧ oracle 1 = false ∧ oracle 2 = false) →
      (Appliance.is_web_ui_running unsure oracle).1 = Appliance.PyVal.bool false) ∧
    ((oracle 0 = true ∧ oracle 1 = true ∧ oracle 2 = true) →
      (Appliance.is_web_ui_running unsure oracle).1 = Appliance.PyVal.bool true) ∧
    ((¬ (oracle 0 = true ∧ oracle 1 = true ∧ oracle 2 = true) ∧
      ¬ (oracle 0 = false ∧ oracle 1 = false ∧ oracle 2 = false)) →
      (Appliance.is_web_ui_running unsure oracle).1 = unsure) ∧
    ((unsure ≠ Appliance.PyVal.bool true ∧ unsure ≠ Appliance.PyVal.bool false) →
      (((Appliance.is_web_ui_running unsure oracle).1 = Appliance.PyVal.bool true ↔
          (oracle 0 = true ∧ oracle 1 = true ∧ oracle 2 = true)) ∧
       ((Appliance.is_web_ui_running unsure oracle).1 = Appliance.PyVal.bool false ↔
          (oracle 0 = false ∧ oracle 1 = false ∧ oracle 2 = false)))) := by
  have hrange : List.range 3 = [0, 1, 2] := rfl
  cases h0 : oracle 0 <;> cases h1 : oracle 1 <;> cases h2 : oracle 2 <;>
    simp [Appliance.is_web_ui_running, Appliance.ui_probe_loop, hrange, h0, h1, h2]

/-- Key membership through a filter of key-value pairs by a dead-key
list: a key survives iff it was a key and is not dead. -/
theorem keys_of_filtered_pairs (A : List String) (g : String → Bool)
    (dead : List String) (k : String) :
    (k ∈ ((A.map (fun n => (n, g n))).filter
        (fun kv => !(dead.contains kv.1))).map (fun kv => kv.1)) ↔
      (k ∈ A ∧ k ∉ dead) := by
  simp [List.mem_filter]
  intro _
  constructor
  · rintro (⟨a, ha, rfl, _⟩ | ⟨a, ha, rfl, _⟩) <;> exact ha
  · intro hk
    cases hg : g k
    · exact Or.inl ⟨k, hk, rfl, hg⟩
    · exact Or.inr ⟨k, hk, rfl, hg⟩

/-- Projecting the keys back out of the name-to-bool pair list. -/
theorem map_fst_pairs (A : List String) (g : String → Bool) :
    (A.map (fun n => (n, g n))).map (fun kv => kv.1) = A := by
  induction A with
  | nil => rfl
  | cons a t ih => simp [ih]

/-- Membership in the key set of the `server_roles` getter result: a key
survives iff it is a role name from the `server_roles` table, is neither
`database_owner` nor `vdi_inventory`, and, when storage is disabled,
neither starts with `storage` nor equals `vmdb_storage_bridge`. -/
theorem mem_server_roles_getter_keys (sr : List Appliance.ServerRole)
    (asr : List Appliance.AssignedServerRole) (evm_id : Nat) (flag : Bool)
    (k : String) :
    (k ∈ (Appliance.server_roles_getter sr asr evm_id flag).map (fun kv => kv.1)) ↔
      (k ∈ sr.map (fun r => r.name) ∧ k ≠ "database_owner" ∧ k ≠ "vdi_inventory" ∧
       (flag = true ∨
         (k.startsWith "storage" = false ∧ k ≠ "vmdb_storage_bridge"))) := by
  rw [Appliance.server_roles_getter]
  rw [keys_of_filtered_pairs, map_fst_pairs]
  cases flag
  · rw [if_neg (by decide : ¬ (false = true))]
    simp only [List.mem_append, List.mem_filter, List.mem_dedup, not_or,
      List.mem_cons, List.not_mem_nil, or_false, Bool.or_eq_true, beq_iff_eq]
    generalize k.startsWith "storage" = sw
    cases sw <;> simp <;> tauto
  · rw [if_pos rfl]
    simp [List.mem_dedup, not_or, and_assoc]

/-- C9: the `server_roles` mapping returned by the getter never contains
the keys `database_owner` and `vdi_inventory`, whatever the storage
feature flag; the flag additionally suppresses exactly the keys starting
with `storage` together with `vmdb_storage_bridge`, and nothing else. -/
theorem server_roles_view_suppression (sr : List Appliance.ServerRole)
    (asr : List Appliance.AssignedServerRole) (evm_id : Nat) (flag : Bool) :
    "database_owner" ∉
      (Appliance.server_roles_getter sr asr evm_id flag).map (fun kv => kv.1) ∧
    "vdi_inventory" ∉
      (Appliance.server_roles_getter sr asr evm_id flag).map (fun kv => kv.1) ∧
    (∀ k, k ∈ (Appliance.server_roles_getter sr asr evm_id flag).map (fun kv => kv.1) ↔
      (k ∈ sr.map (fun r => r.name) ∧ k ≠ "database_owner" ∧ k ≠ "vdi_inventory" ∧
       (flag = true ∨
         (k.startsWith "storage" = false ∧ k ≠ "vmdb_storage_bridge")))) := by
  refine ⟨fun hmem => ?_, fun hmem => ?_,
    fun k => mem_server_roles_getter_keys sr asr evm_id flag k⟩
  · have h := (mem_server_roles_getter_keys sr asr evm_id flag "database_owner").1 hmem
    exact h.2.1 rfl
  · have h := (mem_server_roles_getter_keys sr asr evm_id flag "vdi_inventory").1 hmem
    exact h.2.2.1 rfl

/-- C4: assigning the `server_roles` setter a mapping equal to the one
the getter currently reads is a no-op — the action trace is empty, so no
YAML configuration is fetched or written and no convergence wait runs. -/
theorem server_roles_setter_idempotent (sr : List Appliance.ServerRole)
    (asr : List Appliance.AssignedServerRole) (evm_id : Nat) (flag : Bool)
    (roles : List (String × Bool))
    (h : Appliance.pyDictEq
      (Appliance.server_roles_getter sr asr evm_id flag) roles = true) :
    Appliance.server_roles_setter sr asr evm_id flag roles = [] := by
  simp [Appliance.server_roles_setter, h]

/-- C4 witness: a one-role database with that role inactive, re-assigned
with the identical mapping, performs no configuration action. -/
theorem server_roles_setter_idempotent_witness :
    Appliance.server_roles_setter [⟨1, "ems_operations"⟩] [] 1 true
      [("ems_operations", false)] = [] :=
  server_roles_setter_idempotent [⟨1, "ems_operations"⟩] [] 1 true
    [("ems_operations", false)] (by decide)

/-- C6: the appliance stack is strict LIFO: after pushing A then B, the
first pop returns B and leaves A on top, the second pop returns A and
leaves the stack empty; a scope-exit pop whose actual top is not the
expected appliance raises the `appliance stack inconsistent` consistency
error, and popping an empty stack is itself an error. -/
theorem appliance_stack_lifo (A B : Appliance.StackAppliance)
    (h : A.objId ≠ B.objId) :
    Appliance.stack_pop (Appliance.stack_push (Appliance.stack_push [] A) B) =
      Except.ok (B, [A]) ∧
    Appliance.stack_top [A] = some A ∧
    Appliance.stack_pop [A] = Except.ok (A, []) ∧
    Appliance.exit_pop [A] B = Except.error "appliance stack inconsistent" ∧
    Appliance.stack_pop [] =
      Except.error "AttributeError: None has no attribute address" := by
  simp [Appliance.stack_pop, Appliance.stack_push, Appliance.stack_top,
    Appliance.exit_pop, h]

/-- C6 witness: two distinct appliance objects exercise the LIFO
discipline and the consistency error. -/
theorem appliance_stack_lifo_witness :
    Appliance.exit_pop [⟨0, "10.0.0.1", false⟩] ⟨1, "10.0.0.2", false⟩ =
      Except.error "appliance stack inconsistent" :=
  (appliance_stack_lifo ⟨0, "10.0.0.1", false⟩ ⟨1, "10.0.0.2", false⟩
      (by decide)).2.2.2.1

/-- C7: with exactly one region row (region 0) and exactly one server row
whose address matches the appliance, `server_id`, `server_region` and
`server_name` return that row's id, 0 and name; with zero server rows all
three return `None` instead of raising. -/
theorem server_identity_resolution (hostname g : String)
    (srv : Appliance.MiqServer) (_hmatch : srv.ipaddress = hostname) :
    (Appliance.server_id hostname g ⟨some [0], some [srv]⟩ = some srv.id ∧
     Appliance.server_region hostname g ⟨some [0], some [srv]⟩ = some 0 ∧
     Appliance.server_name hostname g ⟨some [0], some [srv]⟩ = some srv.name) ∧
    (Appliance.server_id hostname g ⟨some [0], some []⟩ = none ∧
     Appliance.server_region hostname g ⟨some [0], some []⟩ = none ∧
     Appliance.server_name hostname g ⟨some [0], some []⟩ = none) := by
  simp [Appliance.server_id, Appliance.server_region, Appliance.server_name,
    Appliance.configuration_details]

/-- C7 witness: a concrete store with one region and one matching server
row resolves to that row's identity. -/
theorem server_identity_resolution_witness :
    Appliance.server_id "10.0.0.9" "GUID-1"
      ⟨some [0], some [⟨17, "EVM", "10.0.0.9", "GUID-1", 3⟩]⟩ = some 17 :=
  (server_identity_resolution "10.0.0.9" "GUID-1"
      ⟨17, "EVM", "10.0.0.9", "GUID-1", 3⟩ rfl).1.1

/-- C8 counterexample: with chrony installed and enabled and the remote
configuration file already equal to the prepared one, but chronyd not
currently running, `fix_ntp_clock` does issue a restart command, so the
restart is not issued only on configuration change. -/
theorem fix_ntp_clock_counterexample :
    Appliance.fix_ntp_clock Appliance.ntpCounterEnv =
      Except.ok [Appliance.NtpCmd.restart_chronyd] ∧
    Appliance.chrony_config_file Appliance.ntpCounterEnv.clock_servers =
      Appliance.ntpCounterEnv.old_conf := by
  exact ⟨rfl, rfl⟩

/-- C8 amended: when chrony is installed, `fix_ntp_clock` issues the
restart command exactly when the prepared configuration differs from the
remote file or chronyd is not currently running (so an unchanged
configuration with a running daemon issues neither a write nor a
restart); the tracking state is verified at the end and a failing
verification raises an appliance error carrying the captured output. -/
theorem fix_ntp_clock_restart_condition (e : Appliance.NtpEnv)
    (hinst : e.chrony_installed = true) :
    (e.tracking_rc_ok = false →
      Appliance.fix_ntp_clock e =
        Except.error
          ("chrony doesn\x27t work. Error message: " ++ e.tracking_output)) ∧
    (e.tracking_rc_ok = true →
      ∃ t, Appliance.fix_ntp_clock e = Except.ok t ∧
        (Appliance.NtpCmd.restart_chronyd ∈ t ↔
          (Appliance.chrony_config_file e.clock_servers ≠ e.old_conf ∨
            e.chronyd_status_ok = false)) ∧
        (Appliance.chrony_config_file e.clock_servers = e.old_conf →
          ∀ c, Appliance.NtpCmd.write_conf c ∉ t)) := by
  constructor
  · intro htrack
    simp [Appliance.fix_ntp_clock, hinst, htrack]
  · intro htrack
    cases hen : e.chronyd_enabled <;> cases hstat : e.chronyd_status_ok <;>
      by_cases hc : Appliance.chrony_config_file e.clock_servers = e.old_conf <;>
        simp [Appliance.fix_ntp_clock, hinst, htrack, hen, hstat, hc, bne]

/-- C8 witness: chrony installed and enabled, configuration changed,
daemon running, tracking fine: the run succeeds and the restart
characterisation holds at this input. -/
theorem fix_ntp_clock_restart_condition_witness :
    ∃ t, Appliance.fix_ntp_clock ⟨true, true, [], "stale", true, true, ""⟩ =
        Except.ok t ∧
      (Appliance.NtpCmd.restart_chronyd ∈ t ↔
        (Appliance.chrony_config_file [] ≠ "stale" ∨ true = false)) ∧
      (Appliance.chrony_config_file [] = "stale" →
        ∀ c, Appliance.NtpCmd.write_conf c ∉ t) :=
  (fix_ntp_clock_restart_condition ⟨true, true, [], "stale", true, true, ""⟩
      rfl).2 rfl

/-- C10 counterexample: for a bare `IPAppliance` X and a provider-backed
`Appliance` Y reporting the same address, the Python `==` operator gives
the subclass reflected `__eq__` priority, so `X == Y` evaluates to
`False` (not `True` as claimed), even though `IPAppliance.__eq__` itself
would compare the addresses equal. -/
theorem appliance_eq_counterexample :
    Appliance.py_eq (Appliance.PyAppliance.ipOnly "10.0.0.5")
      (Appliance.PyAppliance.provided "10.0.0.5" "evm1" "vsphere55") = false ∧
    Appliance.ipappliance_eq_method (Appliance.PyAppliance.ipOnly "10.0.0.5")
      (Appliance.PyAppliance.provided "10.0.0.5" "evm1" "vsphere55") = true := by
  exact ⟨rfl, by decide⟩

/-- C10 amended: the asymmetry lives at the method level, not the
operator level: `IPAppliance.__eq__` applied to a same-address
provider-backed appliance returns True, while `Appliance.__eq__` applied
to a bare `IPAppliance` always returns False; under the CPython `==`
dispatch (subclass reflected method first) both `X == Y` and `Y == X`
therefore evaluate to False. -/
theorem appliance_eq_method_asymmetry (a v p : String) :
    Appliance.ipappliance_eq_method (Appliance.PyAppliance.ipOnly a)
      (Appliance.PyAppliance.provided a v p) = true ∧
    Appliance.appliance_eq_method v p (Appliance.PyAppliance.ipOnly a) = false ∧
    Appliance.py_eq (Appliance.PyAppliance.ipOnly a)
      (Appliance.PyAppliance.provided a v p) = false ∧
    Appliance.py_eq (Appliance.PyAppliance.provided a v p)
      (Appliance.PyAppliance.ipOnly a) = false := by
  simp [Appliance.ipappliance_eq_method, Appliance.appliance_eq_method,
    Appliance.py_eq, Appliance.pyApplianceAddress]

/-- C2 witness: with a non-boolean sentinel and a mixed outcome, the
sentinel is returned and the two characterising equivalences hold. -/
theorem enable_external_db_counterexample :
    (Appliance.enable_external_db Appliance.extDbFailState "192.0.2.7" 1
        "rake aborted").2 =
      Except.error
        "Appliance 10.11.12.13 failed to enable external DB running on 192.0.2.7" ∧
    ¬ ("rake aborted".toList <:+:
        "Appliance 10.11.12.13 failed to enable external DB running on 192.0.2.7".toList) ∧
    (Appliance.enable_external_db Appliance.extDbFailState "192.0.2.7" 1
        "rake aborted").1.db_address ≠ Appliance.extDbFailState.db_address := by
  refine ⟨rfl, by decide, by decide⟩

theorem enable_external_db_failure (s : Appliance.AppState)
    (addr out : String) (status : Int) (h : status ≠ 0) :
    (Appliance.enable_external_db s addr status out).2 =
      Except.error
        ("Appliance " ++ s.address ++ " failed to enable external DB running on "
          ++ addr) ∧
    (Appliance.enable_external_db s addr status out).1.db_address = addr ∧
    (Appliance.enable_external_db s addr status out).1.dbCache = none := by
  simp [Appliance.enable_external_db, h]

theorem enable_external_db_failure_witness :
    (Appliance.enable_external_db Appliance.extDbFailState "192.0.2.8" 2
        "boom").1.dbCache = none :=
  (enable_external_db_failure Appliance.extDbFailState "192.0.2.8" "boom" 2
      (by decide)).2.2

theorem db_cache_invalidation (s : Appliance.AppState) (d : Appliance.Db)
    (addr out : String) (status : Int)
    (_hcache : s.dbCache = some d) (hfresh : d.objId < s.nextId) :
    ((Appliance.enable_internal_db s status out).2.dbCache = none ∧
     (Appliance.db_prop (Appliance.enable_internal_db s status out).2).1.hostname =
       s.address ∧
     (Appliance.db_prop (Appliance.enable_internal_db s status out).2).1 ≠ d) ∧
    ((Appliance.enable_external_db s addr status out).1.dbCache = none ∧
     (Appliance.db_prop (Appliance.enable_external_db s addr status out).1).1.hostname =
       addr ∧
     (Appliance.db_prop (Appliance.enable_external_db s addr status out).1).1 ≠ d) := by
  have hne : (⟨s.address, s.nextId⟩ : Appliance.Db) ≠ d := by
    intro hEq
    exact absurd (congrArg Appliance.Db.objId hEq).symm (Nat.ne_of_lt hfresh)
  have hne2 : (⟨addr, s.nextId⟩ : Appliance.Db) ≠ d := by
    intro hEq
    exact absurd (congrArg Appliance.Db.objId hEq).symm (Nat.ne_of_lt hfresh)
  refine ⟨⟨rfl, rfl, ?_⟩, ?_⟩
  · simpa [Appliance.enable_internal_db, Appliance.db_prop] using hne
  · by_cases hs : status ≠ 0 <;>
      simp [Appliance.enable_external_db, Appliance.db_prop, hs, hne2]

theorem db_cache_invalidation_witness :
    (Appliance.db_prop
        (Appliance.enable_internal_db
          (⟨"10.0.0.1", "10.0.0.2", some ⟨"10.0.0.2", 0⟩, 1⟩ : Appliance.AppState)
          0 "ok").2).1 ≠ (⟨"10.0.0.2", 0⟩ : Appliance.Db) :=
  (db_cache_invalidation
      (⟨"10.0.0.1", "10.0.0.2", some ⟨"10.0.0.2", 0⟩, 1⟩ : Appliance.AppState)
      (⟨"10.0.0.2", 0⟩ : Appliance.Db) "10.0.0.3" "ok" 0 rfl (by decide)).1.2.2

theorem is_web_ui_running_spec_witness :
    (Appliance.is_web_ui_running (Appliance.PyVal.other 7) (fun n => n == 0)).1 =
      Appliance.PyVal.other 7 ∧
    ((Appliance.is_web_ui_running (Appliance.PyVal.other 7) (fun n => n == 0)).1 =
        Appliance.PyVal.bool true ↔
      (((0 : Nat) == 0) = true ∧ ((1 : Nat) == 0) = true ∧ ((2 : Nat) == 0) = true)) :=
  ⟨(is_web_ui_running_spec (Appliance.PyVal.other 7) (fun n => n == 0)).2.2.2.1
      (by decide),
   ((is_web_ui_running_spec (Appliance.PyVal.other 7) (fun n => n == 0)).2.2.2.2
      (by decide)).1⟩
